import Mathlib

/-!
# Verification of the egui-viscanvas viewport core (src/lib.rs)

Shallow embedding of the canvas widget's data model and operations.
Scalars of the viewport state machine are modelled as `ℚ` (the source
uses `f32`; the claims under study are algebraic, so we work in an exact
field).  The arrow-head geometry of `Segment::show`, which involves
`cos(pi/4)` and vector normalisation, is embedded separately over `ℝ`
(see the `R`-suffixed definitions below).

External collaborators (egui's painter, text layout and image loading)
are modelled as data: the painter becomes a draw-call log, text
measurement becomes an oracle function, and an image source is
represented by the outcome its per-frame `load` poll produces.
-/

namespace VisCanvas

/-- egui `Vec2` / `Pos2` over exact rationals (both are a pair of scalars;
egui's `to_vec2`/`to_pos2` conversions are identities here). -/
structure Vec2 where
  x : ℚ
  y : ℚ
deriving DecidableEq

abbrev Pos2 := Vec2

instance : Add Vec2 := ⟨fun a b => ⟨a.x + b.x, a.y + b.y⟩⟩
instance : Sub Vec2 := ⟨fun a b => ⟨a.x - b.x, a.y - b.y⟩⟩
instance : Neg Vec2 := ⟨fun a => ⟨-a.x, -a.y⟩⟩

/-- Componentwise product, as egui's `Vec2 * Vec2`. -/
instance : Mul Vec2 := ⟨fun a b => ⟨a.x * b.x, a.y * b.y⟩⟩

/-- Componentwise quotient, as egui's `Vec2 / Vec2`. -/
instance : Div Vec2 := ⟨fun a b => ⟨a.x / b.x, a.y / b.y⟩⟩

/-- Scalar product `v * k`, as egui's `Vec2 * f32`. -/
instance : HMul Vec2 ℚ Vec2 := ⟨fun a k => ⟨a.x * k, a.y * k⟩⟩

/-- Embeds `Origin` (src/lib.rs lines 16-20). -/
inductive Origin where
  | TopLeft
  | BottomLeft
deriving DecidableEq

/-- egui `Color32` (opaque style data; only its identity matters here). -/
structure Color32 where
  r : ℕ
  g : ℕ
  b : ℕ
  a : ℕ
deriving DecidableEq

def Color32.BLACK : Color32 := ⟨0, 0, 0, 255⟩
def Color32.WHITE : Color32 := ⟨255, 255, 255, 255⟩

/-- The default `Color32` is fully transparent. -/
instance : Inhabited Color32 := ⟨⟨0, 0, 0, 0⟩⟩

/-- egui `Stroke` (width and colour). -/
structure Stroke where
  width : ℚ
  color : Color32
deriving DecidableEq

def Stroke.new (width : ℚ) (color : Color32) : Stroke := ⟨width, color⟩

/-- Embeds `VisCanvasStateInner` (src/lib.rs lines 534-539). -/
structure VisCanvasStateInner where
  origin : Origin
  current_scale : ℚ
  shift : Vec2
deriving DecidableEq

/-- Embeds `Default for VisCanvasStateInner` (src/lib.rs lines 541-549). -/
def VisCanvasStateInner.default : VisCanvasStateInner :=
  { current_scale := 1, shift := ⟨0, 0⟩, origin := Origin.TopLeft }

instance : Inhabited VisCanvasStateInner := ⟨VisCanvasStateInner.default⟩

/-- Embeds `VisCanvasStateInner::current_scale_vec` (src/lib.rs lines 640-645). -/
def VisCanvasStateInner.current_scale_vec (s : VisCanvasStateInner) : Vec2 :=
  match s.origin with
  | Origin.TopLeft => ⟨s.current_scale, s.current_scale⟩
  | Origin.BottomLeft => ⟨s.current_scale, -s.current_scale⟩

/-- Embeds `VisCanvasStateInner::is_valid` (src/lib.rs lines 647-654). -/
def VisCanvasStateInner.is_valid (s : VisCanvasStateInner) : Bool :=
  decide (0 ≤ s.current_scale ∧ s.current_scale ≤ 10 ∧
    -100000 ≤ s.shift.x ∧ s.shift.x ≤ 100000 ∧
    -100000 ≤ s.shift.y ∧ s.shift.y ≤ 100000)

/-- Embeds `VisCanvasState` (src/lib.rs lines 529-532); the widget identity is an
opaque key, modelled as `ℕ`. -/
structure VisCanvasState where
  id : ℕ
  inner_state : VisCanvasStateInner
deriving DecidableEq

/-- Embeds `VisCanvasState::screen_to_canvas` (src/lib.rs lines 552-556).  The
source asserts `current_scale != 0` before dividing; the assertion is
modelled as an `Option` guard (`none` = the assertion fires). -/
def VisCanvasState.screen_to_canvas (s : VisCanvasState) (screen_pos : Pos2) :
    Option Pos2 :=
  if s.inner_state.current_scale = 0 then none
  else some ((screen_pos - s.inner_state.shift) / s.inner_state.current_scale_vec)

/-- The canvas-to-screen mapping every shape's `show` applies to its
geometry: `painter.clip_rect().min + (p * current_scale_vec() + shift)`
(src/lib.rs lines 129-132, 303-304, 423-430, 188-193). -/
def to_screen (s : VisCanvasStateInner) (clip_min : Pos2) (p : Pos2) : Pos2 :=
  clip_min + (p * s.current_scale_vec + s.shift)

/-- Embeds `SCROLL_SPEED` (src/lib.rs line 13). -/
def SCROLL_SPEED : ℚ := 1

/-- Embeds `ZOOM_SPEED` (src/lib.rs line 14). -/
def ZOOM_SPEED : ℚ := 1

/-- The per-frame pointer/scroll/zoom inputs `show_body` reads from egui
(`response.dragged_by(Middle)`, `response.drag_delta()`,
`response.hover_pos()`, `response.rect.min`, `input.raw_scroll_delta`,
`input.zoom_delta()`). -/
structure FrameInput where
  dragged_middle : Bool
  drag_delta : Vec2
  hover_pos : Option Pos2
  rect_min : Pos2
  raw_scroll_delta : Vec2
  zoom_delta : ℚ

/-- The zoom block of `show_body` (src/lib.rs lines 619-627):
`scale = zoom_delta * ZOOM_SPEED; current_scale *= scale;
shift = shift * scale + vec2(-scale*pos.x + pos.x, -scale*pos.y + pos.y)`.
`scale` here is the already-multiplied gesture delta. -/
def zoom_step (st : VisCanvasStateInner) (pos : Pos2) (scale : ℚ) :
    VisCanvasStateInner :=
  { st with
    current_scale := st.current_scale * scale,
    shift := st.shift * scale + Vec2.mk (-scale * pos.x + pos.x) (-scale * pos.y + pos.y) }

/-- The pan/scroll/zoom update sequence of `show_body`
(src/lib.rs lines 605-629), applied to the post-render state. -/
def update_state (st : VisCanvasStateInner) (input : FrameInput) :
    VisCanvasStateInner :=
  let st1 :=
    if input.dragged_middle then { st with shift := st.shift + input.drag_delta }
    else st
  match input.hover_pos with
  | none => st1
  | some hover_pos =>
    let pos := hover_pos - input.rect_min
    let st2 := { st1 with
      shift := st1.shift + Vec2.mk input.raw_scroll_delta.x input.raw_scroll_delta.y * SCROLL_SPEED }
    zoom_step st2 pos (input.zoom_delta * ZOOM_SPEED)

/-- The whole state transition of one `show_body` call (src/lib.rs lines
575-636): snapshot `old_state`, apply pan/scroll/zoom, and roll the whole
state back when `is_valid` fails. -/
def step_state (st : VisCanvasStateInner) (input : FrameInput) :
    VisCanvasStateInner :=
  let old_state := st
  let new_state := update_state st input
  if new_state.is_valid then new_state else old_state

/-- egui `Rect`, stored as its two corners. -/
structure Rect where
  min : Pos2
  max : Pos2
deriving DecidableEq

/-- Embeds `Rect::from_two_pos` orders the corners componentwise. -/
def Rect.from_two_pos (a b : Pos2) : Rect :=
  ⟨⟨Min.min a.x b.x, Min.min a.y b.y⟩, ⟨Max.max a.x b.x, Max.max a.y b.y⟩⟩

def Rect.from_min_size (m : Pos2) (size : Vec2) : Rect := ⟨m, m + size⟩

def Rect.left_top (r : Rect) : Pos2 := r.min

/-- The two egui `Align2` anchors this code uses. -/
inductive Align2 where
  | CENTER_CENTER
  | LEFT_BOTTOM
deriving DecidableEq

/-- Embeds `SegmentData` (src/lib.rs lines 45-49); `end` is a Lean keyword, so the
field is `end_`. -/
structure SegmentData where
  start : Pos2
  end_ : Pos2
deriving DecidableEq

instance : Inhabited SegmentData := ⟨⟨⟨0, 0⟩, ⟨0, 0⟩⟩⟩

/-- Embeds `SegmentAccent` (src/lib.rs lines 51-56). -/
inductive SegmentAccent where
  | None
  | Arrow
deriving DecidableEq

/-- Embeds `Segment` (src/lib.rs lines 58-63). -/
structure Segment where
  data : SegmentData
  stroke : Stroke
  accents : SegmentAccent × SegmentAccent
deriving DecidableEq

/-- Embeds `Segment::new` (src/lib.rs lines 95-101). -/
def Segment.new (start end_ : Pos2) : Segment :=
  ⟨⟨start, end_⟩, Stroke.new 1 Color32.BLACK, (SegmentAccent.None, SegmentAccent.None)⟩

/-- Embeds `PiecewiseSegment` (src/lib.rs lines 174-178). -/
structure PiecewiseSegment where
  data : List SegmentData
  stroke : Stroke
deriving DecidableEq

instance : Inhabited Vec2 := ⟨⟨0, 0⟩⟩

/-- Embeds `PiecewiseSegment::new` (src/lib.rs lines 200-217): fewer than two
points yield `None`; otherwise segment `i` joins `points[i]` and
`points[i+1]`. -/
def PiecewiseSegment.new (points : List Pos2) : Option PiecewiseSegment :=
  if points.length < 2 then none
  else
    some ⟨(List.range (points.length - 1)).map
            (fun i => ⟨points.getD i default, points.getD (i + 1) default⟩),
          Stroke.new 1 Color32.BLACK⟩

/-- Embeds `Circle` (src/lib.rs lines 236-244). -/
structure Circle where
  center : Pos2
  radius : ℚ
  fill_color : Option Color32
  stroke : Option Stroke
  label : Option String
  responsable : Bool
deriving DecidableEq

/-- Embeds `Rectangle` (src/lib.rs lines 347-357). -/
structure Rectangle where
  x : ℚ
  y : ℚ
  width : ℚ
  height : ℚ
  fill_color : Option Color32
  stroke : Option Stroke
  label : Option String
  responsable : Bool
deriving DecidableEq

/-- Embeds `egui::load::LoadError`, opaque (only its identity matters). -/
structure LoadError where
  code : ℕ
deriving DecidableEq

/-- Embeds `SizedTexture`: what a ready texture poll exposes (`texture.id`,
`texture.size`). -/
structure SizedTexture where
  id : ℕ
  size : Vec2
deriving DecidableEq

/-- Embeds `egui::load::TexturePoll` (the non-error outcomes). -/
inductive TexturePoll where
  | Ready (texture : SizedTexture)
  | Pending
deriving DecidableEq

/-- Embeds `Image` (src/lib.rs lines 471-474).  The `ImageSource` is opaque and
its per-frame `load` poll is an external collaborator; we model the
source by the outcome that poll produces this frame. -/
structure Image where
  image_source : Except LoadError TexturePoll

/-- Embeds `VisCanvasError` (src/error.rs). -/
inductive VisCanvasError where
  | LoadError (e : LoadError)
deriving DecidableEq

/-- Embeds `Content` (src/lib.rs lines 30-37). -/
inductive Content where
  | Image (i : Image)
  | Rectangle (r : Rectangle)
  | Circle (c : Circle)
  | Segment (s : Segment)
  | PiecewiseSegment (p : PiecewiseSegment)

/-- One painter call.  `segment_shape` is the composite of the up-to-three
painter calls `Segment::show` makes (arrow heads and the line); it records
the segment and its two transformed raw endpoints — the exact arrow-head
geometry involves `cos(pi/4)` and normalisation and is settled over `ℝ`
by `SegmentR.show` below. -/
inductive DrawCall where
  | rect (r : Rect) (fill : Color32) (stroke : Stroke)
  | rect_filled (r : Rect) (fill : Color32)
  | circle (center : Pos2) (radius : ℚ) (fill : Color32) (stroke : Stroke)
  | text (pos : Pos2) (anchor : Align2) (s : String) (color : Color32)
  | line_segment (a b : Pos2) (stroke : Stroke)
  | image (texture_id : ℕ) (r : Rect)
  | segment_shape (seg : Segment) (a b : Pos2)
deriving DecidableEq

/-- A per-shape interactive response: `ui.allocate_rect(rect, click)`,
modelled by the allocated region. -/
structure Response where
  rect : Rect
deriving DecidableEq

/-- The pieces of the egui `Ui`/`Painter` environment the shows read:
the clip rectangle's origin, and the text-layout oracle giving the
rectangle `painter.text` returns for a given anchor position and string. -/
structure RenderEnv where
  clip_min : Pos2
  measure_text : Pos2 → Align2 → String → Rect

/-- Embeds `Rectangle::show` (src/lib.rs lines 417-468): draws the transformed
rectangle, the two-pass label (text, optional fill plate, text again), and
allocates a click response only when `responsable`. -/
def Rectangle.show (r : Rectangle) (env : RenderEnv) (st : VisCanvasStateInner) :
    Except VisCanvasError (Option Response × List DrawCall) :=
  let rect := Rect.from_two_pos
    (to_screen st env.clip_min ⟨r.x, r.y⟩)
    (to_screen st env.clip_min ⟨r.x + r.width, r.y + r.height⟩)
  let label_calls :=
    match r.label with
    | none => []
    | some label =>
      let text_rect := env.measure_text rect.left_top Align2.LEFT_BOTTOM label
      DrawCall.text rect.left_top Align2.LEFT_BOTTOM label Color32.BLACK ::
        ((match r.fill_color with
          | some fill_color => [DrawCall.rect_filled text_rect fill_color]
          | none => []) ++
         [DrawCall.text rect.left_top Align2.LEFT_BOTTOM label Color32.BLACK])
  let calls := DrawCall.rect rect (r.fill_color.getD default)
      (r.stroke.getD (Stroke.new 0 Color32.BLACK)) :: label_calls
  if r.responsable then Except.ok (some ⟨rect⟩, calls)
  else Except.ok (none, calls)

/-- Embeds `Circle::show` (src/lib.rs lines 297-338): draws the transformed
circle (radius scaled by the scalar `current_scale`) and the two-pass
label; it always returns `Ok(None)`. -/
def Circle.show (c : Circle) (env : RenderEnv) (st : VisCanvasStateInner) :
    Except VisCanvasError (Option Response × List DrawCall) :=
  let center := to_screen st env.clip_min c.center
  let radius := c.radius * st.current_scale
  let label_calls :=
    match c.label with
    | none => []
    | some label =>
      let text_rect := env.measure_text center Align2.CENTER_CENTER label
      DrawCall.text center Align2.CENTER_CENTER label Color32.BLACK ::
        ((match c.fill_color with
          | some fill_color => [DrawCall.rect_filled text_rect fill_color]
          | none => []) ++
         [DrawCall.text center Align2.CENTER_CENTER label Color32.BLACK])
  Except.ok (none,
    DrawCall.circle center radius (c.fill_color.getD default)
      (c.stroke.getD (Stroke.new 0 Color32.BLACK)) :: label_calls)

/-- Embeds `Segment::show` (src/lib.rs lines 123-165): transforms both endpoints
and returns `Ok(None)`; its painter output is logged as one composite
`segment_shape` call (exact geometry in `SegmentR.show`). -/
def Segment.show (s : Segment) (env : RenderEnv) (st : VisCanvasStateInner) :
    Except VisCanvasError (Option Response × List DrawCall) :=
  let start := to_screen st env.clip_min s.data.start
  let end_ := to_screen st env.clip_min s.data.end_
  Except.ok (none, [DrawCall.segment_shape s start end_])

/-- Embeds `PiecewiseSegment::show` (src/lib.rs lines 181-198): one line per
stored segment, all with the shared stroke; always `Ok(None)`. -/
def PiecewiseSegment.show (p : PiecewiseSegment) (env : RenderEnv)
    (st : VisCanvasStateInner) :
    Except VisCanvasError (Option Response × List DrawCall) :=
  Except.ok (none,
    p.data.map (fun sd =>
      DrawCall.line_segment (to_screen st env.clip_min sd.start)
        (to_screen st env.clip_min sd.end_) p.stroke))

/-- Embeds `Image::show` (src/lib.rs lines 487-514): a load failure propagates
(the `?`); a ready texture is drawn at the transformed canvas origin with
the scalar scale (no Y flip); pending draws nothing. -/
def Image.show (i : Image) (env : RenderEnv) (st : VisCanvasStateInner) :
    Except VisCanvasError (Option Response × List DrawCall) :=
  match i.image_source with
  | Except.error e => Except.error (VisCanvasError.LoadError e)
  | Except.ok (TexturePoll.Ready texture) =>
    Except.ok (none,
      [DrawCall.image texture.id
        (Rect.from_min_size
          (env.clip_min + (Vec2.mk 0 0 * st.current_scale + st.shift))
          (texture.size * st.current_scale))])
  | Except.ok TexturePoll.Pending => Except.ok (none, [])

/-- The dispatch of the draw loop body (src/lib.rs lines 583-599). -/
def Content.show (c : Content) (env : RenderEnv) (st : VisCanvasStateInner) :
    Except VisCanvasError (Option Response × List DrawCall) :=
  match c with
  | Content.Rectangle r => r.show env st
  | Content.Image i => i.show env st
  | Content.Segment s => s.show env st
  | Content.PiecewiseSegment p => p.show env st
  | Content.Circle c => c.show env st

/-- The draw loop of `show_body` (src/lib.rs lines 582-600): each
content's `show` runs in order, its per-shape response is discarded, and
the first failure short-circuits the loop (the `?`).  The first component
is everything painted before the failure (painter effects persist), the
second the failure, if any. -/
def render_loop (contents : List Content) (env : RenderEnv)
    (st : VisCanvasStateInner) : List DrawCall × Option VisCanvasError :=
  match contents with
  | [] => ([], none)
  | c :: rest =>
    match c.show env st with
    | Except.error e => ([], some e)
    | Except.ok (_, calls) =>
      let r := render_loop rest env st
      (calls ++ r.1, r.2)

/-- Embeds `VisCanvasState::show_body` (src/lib.rs lines 575-636): render loop
first (a failure propagates before any state update), then the
pan/scroll/zoom update and the validity rollback. -/
def show_body (st : VisCanvasStateInner) (contents : List Content)
    (env : RenderEnv) (input : FrameInput) :
    List DrawCall × Except VisCanvasError VisCanvasStateInner :=
  let r := render_loop contents env st
  match r.2 with
  | some e => (r.1, Except.error e)
  | none => (r.1, Except.ok (step_state st input))

/-- The external per-identity persisted store (`ctx.data_mut` with
`get_persisted`/`insert_persisted`). -/
def Store : Type := ℕ → Option VisCanvasStateInner

/-- Embeds `VisCanvasState::load` (src/lib.rs lines 558-567): the persisted
state, or the default when the identity has no entry, with its `origin`
overwritten by the supplied value. -/
def VisCanvasState.load (store : Store) (id : ℕ) (origin : Origin) :
    VisCanvasState :=
  let inner := (store id).getD VisCanvasStateInner.default
  ⟨id, { inner with origin := origin }⟩

/-- Embeds `VisCanvasState::store` (src/lib.rs lines 569-573). -/
def VisCanvasState.store (s : VisCanvasState) (store : Store) : Store :=
  fun j => if j = s.id then some s.inner_state else store j

/-- Embeds `vis_canvas` (src/lib.rs lines 517-527): load, show_body, and store —
the store step is skipped when `show_body` fails (the `?`).  Returns the
draw log, the result, and the store after the call. -/
def vis_canvas (store : Store) (id : ℕ) (origin : Origin)
    (contents : List Content) (env : RenderEnv) (input : FrameInput) :
    List DrawCall × Except VisCanvasError VisCanvasState × Store :=
  let state := VisCanvasState.load store id origin
  let r := show_body state.inner_state contents env input
  match r.2 with
  | Except.error e => (r.1, Except.error e, store)
  | Except.ok inner => (r.1, Except.ok ⟨id, inner⟩, VisCanvasState.store ⟨id, inner⟩ store)

/-- One frame of a widget's life: the identity, the freshly supplied
origin, the contents, and this frame's environment and inputs. -/
structure Frame where
  id : ℕ
  origin : Origin
  contents : List Content
  env : RenderEnv
  input : FrameInput

/-- Run a sequence of frames against the store, as the host would. -/
def run_frames (store : Store) (frames : List Frame) : Store :=
  frames.foldl (fun s f => (vis_canvas s f.id f.origin f.contents f.env f.input).2.2) store

/-- The store of a host session that has not yet persisted anything. -/
def empty_store : Store := fun _ => none

/-!
## The arrow-head geometry over `ℝ`

`Segment::show`'s arrow decoration uses `f32::cos(FRAC_PI_4)` and vector
normalisation, so this part of the code is embedded over `ℝ` (the
`R`-suffixed twins of the rational definitions above).
-/

/-- egui `Vec2` / `Pos2` over `ℝ`. -/
structure VecR where
  x : ℝ
  y : ℝ

noncomputable instance : Add VecR := ⟨fun a b => ⟨a.x + b.x, a.y + b.y⟩⟩
noncomputable instance : Sub VecR := ⟨fun a b => ⟨a.x - b.x, a.y - b.y⟩⟩
noncomputable instance : Mul VecR := ⟨fun a b => ⟨a.x * b.x, a.y * b.y⟩⟩
noncomputable instance : HMul VecR ℝ VecR := ⟨fun a k => ⟨a.x * k, a.y * k⟩⟩

/-- egui `Vec2::length`. -/
noncomputable def VecR.length (v : VecR) : ℝ := Real.sqrt (v.x ^ 2 + v.y ^ 2)

/-- egui `Vec2::normalized`: `self / self.length()`. -/
noncomputable def VecR.normalized (v : VecR) : VecR :=
  ⟨v.x / v.length, v.y / v.length⟩

/-- Embeds `Stroke` over `ℝ`. -/
structure StrokeR where
  width : ℝ
  color : Color32

/-- Embeds `Shape::Path(PathShape::convex_polygon(points, fill, stroke))`. -/
structure PathShapeR where
  points : List VecR
  fill : Color32
  stroke : StrokeR

/-- Embeds `std::f32::consts::FRAC_PI_4`. -/
noncomputable def FRAC_PI_4 : ℝ := Real.pi / 4

/-- Embeds `arrow_head_shape` (src/lib.rs lines 65-92): normalise the back
vector, rotate it by +45 and -45 degrees, place the wing points at
`point + wing * 5 * thickness`, return the filled triangle
`(point, p2, p1)` together with the offset `v * 3 * thickness`. -/
noncomputable def arrow_head_shape (point : VecR) (back_vector : VecR)
    (thickness : ℝ) (fill_color : Color32) : PathShapeR × VecR :=
  let v := back_vector.normalized
  let v1 := VecR.mk
    (v.x * Real.cos FRAC_PI_4 - v.y * Real.sin FRAC_PI_4)
    (v.x * Real.sin FRAC_PI_4 + v.y * Real.cos FRAC_PI_4)
  let p1 := point + v1 * (5 : ℝ) * thickness
  let v2 := VecR.mk
    (v.x * Real.cos (-FRAC_PI_4) - v.y * Real.sin (-FRAC_PI_4))
    (v.x * Real.sin (-FRAC_PI_4) + v.y * Real.cos (-FRAC_PI_4))
  let p2 := point + v2 * (5 : ℝ) * thickness
  (⟨[point, p2, p1], fill_color, ⟨0, default⟩⟩, v * (3 : ℝ) * thickness)

/-- Embeds `SegmentData` over `ℝ`. -/
structure SegmentDataR where
  start : VecR
  end_ : VecR

/-- Embeds `Segment` over `ℝ`. -/
structure SegmentR where
  data : SegmentDataR
  stroke : StrokeR
  accents : SegmentAccent × SegmentAccent

/-- Embeds `VisCanvasStateInner` over `ℝ`. -/
structure VisCanvasStateInnerR where
  origin : Origin
  current_scale : ℝ
  shift : VecR

/-- Embeds `current_scale_vec` over `ℝ`. -/
noncomputable def VisCanvasStateInnerR.current_scale_vec
    (s : VisCanvasStateInnerR) : VecR :=
  match s.origin with
  | Origin.TopLeft => ⟨s.current_scale, s.current_scale⟩
  | Origin.BottomLeft => ⟨s.current_scale, -s.current_scale⟩

/-- Embeds `to_screen` over `ℝ` (src/lib.rs lines 129-132). -/
noncomputable def to_screenR (s : VisCanvasStateInnerR) (clip_min : VecR)
    (p : VecR) : VecR :=
  clip_min + (p * s.current_scale_vec + s.shift)

/-- Embeds `Segment::show` over `ℝ` (src/lib.rs lines 123-165), with the painter
made explicit: returns the arrow-head triangles added, and the endpoints
of the final `painter.line_segment` call (the start accent is processed
first and its offset applied before the end accent reads `start`). -/
noncomputable def SegmentR.show (s : SegmentR) (clip_min : VecR)
    (st : VisCanvasStateInnerR) : List PathShapeR × (VecR × VecR) :=
  let start0 := to_screenR st clip_min s.data.start
  let end0 := to_screenR st clip_min s.data.end_
  let step1 : List PathShapeR × VecR :=
    match s.accents.1 with
    | SegmentAccent.Arrow =>
      let r := arrow_head_shape start0 ((end0 - start0).normalized)
        s.stroke.width s.stroke.color
      ([r.1], start0 + r.2)
    | SegmentAccent.None => ([], start0)
  let start1 := step1.2
  let step2 : List PathShapeR × VecR :=
    match s.accents.2 with
    | SegmentAccent.Arrow =>
      let r := arrow_head_shape end0 ((start1 - end0).normalized)
        s.stroke.width s.stroke.color
      (step1.1 ++ [r.1], end0 + r.2)
    | SegmentAccent.None => (step1.1, end0)
  (step2.1, (start1, step2.2))

/-- Rotation by +45 degrees, as the `v1` computation in
`arrow_head_shape` writes it. -/
noncomputable def rot_pos45 (v : VecR) : VecR :=
  ⟨v.x * Real.cos FRAC_PI_4 - v.y * Real.sin FRAC_PI_4,
   v.x * Real.sin FRAC_PI_4 + v.y * Real.cos FRAC_PI_4⟩

/-- Rotation by -45 degrees, as the `v2` computation in
`arrow_head_shape` writes it. -/
noncomputable def rot_neg45 (v : VecR) : VecR :=
  ⟨v.x * Real.cos (-FRAC_PI_4) - v.y * Real.sin (-FRAC_PI_4),
   v.x * Real.sin (-FRAC_PI_4) + v.y * Real.cos (-FRAC_PI_4)⟩

/-! ## Helper lemmas -/

theorem Vec2.ext_iff' (a b : Vec2) : a = b ↔ a.x = b.x ∧ a.y = b.y := by
  cases a; cases b; simp

theorem VecR.ext_components (a b : VecR) : a = b ↔ a.x = b.x ∧ a.y = b.y := by
  cases a; cases b; simp

theorem Vec2.add_def (a b : Vec2) : a + b = ⟨a.x + b.x, a.y + b.y⟩ := rfl

theorem Vec2.sub_def (a b : Vec2) : a - b = ⟨a.x - b.x, a.y - b.y⟩ := rfl

theorem Vec2.mul_def (a b : Vec2) : a * b = ⟨a.x * b.x, a.y * b.y⟩ := rfl

theorem Vec2.div_def (a b : Vec2) : a / b = ⟨a.x / b.x, a.y / b.y⟩ := rfl

theorem Vec2.smul_def (a : Vec2) (k : ℚ) : a * k = ⟨a.x * k, a.y * k⟩ := rfl

/-! ## The claims -/

/-- C1.  The round trip as the claim states it — with the clip origin
added by the forward map, over an arbitrary clip origin — fails on the
code: `screen_to_canvas` never subtracts the clip origin.  Concretely, at
scale 1, shift (0,0), `TopLeft` (so `scale > 0` holds) and clip origin
(1,0), the canvas point (0,0) maps forward to screen (1,0) and back to
canvas (1,0), not (0,0). -/
theorem round_trip_counterexample :
    0 < (VisCanvasState.mk 0 ⟨Origin.TopLeft, 1, ⟨0, 0⟩⟩).inner_state.current_scale ∧
    (VisCanvasState.mk 0 ⟨Origin.TopLeft, 1, ⟨0, 0⟩⟩).screen_to_canvas
        (to_screen ⟨Origin.TopLeft, 1, ⟨0, 0⟩⟩ ⟨1, 0⟩ ⟨0, 0⟩) ≠
      some ⟨0, 0⟩ := by
  constructor
  · norm_num
  · simp only [VisCanvasState.screen_to_canvas, to_screen,
      VisCanvasStateInner.current_scale_vec, Vec2.add_def, Vec2.sub_def,
      Vec2.mul_def, Vec2.div_def]
    norm_num [Vec2.ext_iff']

/-- C1 (amended).  For every state with `scale > 0`, both origin
variants, every canvas point `p` and every clip origin, the inverse of
the forward shape mapping returns `p + clipOrigin / scaleVector(origin)`;
it returns exactly `p` when the clip origin is `(0,0)` (equivalently,
when the screen point is taken relative to the canvas area's origin). -/
theorem round_trip_amended (s : VisCanvasState) (clip_min p : Pos2)
    (h : 0 < s.inner_state.current_scale) :
    s.screen_to_canvas (to_screen s.inner_state clip_min p) =
      some (p + clip_min / s.inner_state.current_scale_vec) ∧
    s.screen_to_canvas (to_screen s.inner_state ⟨0, 0⟩ p) = some p := by
  obtain ⟨id, o, sc, shx, shy⟩ := s
  obtain ⟨cx, cy⟩ := clip_min
  obtain ⟨px, py⟩ := p
  simp only at h
  have hne : sc ≠ 0 := ne_of_gt h
  have hne2 : -sc ≠ 0 := neg_ne_zero.mpr hne
  cases o <;>
    constructor <;>
      simp only [VisCanvasState.screen_to_canvas, to_screen,
        VisCanvasStateInner.current_scale_vec, Vec2.add_def, Vec2.sub_def,
        Vec2.mul_def, Vec2.div_def, if_neg hne, Option.some.injEq,
        Vec2.ext_iff'] <;>
      constructor <;> field_simp <;> ring

/-- C1 witness: the amended round trip evaluated at scale 2, shift
(3,4), clip origin (5,6), canvas point (7,8). -/
theorem round_trip_witness :
    0 < (VisCanvasState.mk 0 ⟨Origin.TopLeft, 2, ⟨3, 4⟩⟩).inner_state.current_scale ∧
    ((VisCanvasState.mk 0 ⟨Origin.TopLeft, 2, ⟨3, 4⟩⟩).screen_to_canvas
        (to_screen (VisCanvasState.mk 0 ⟨Origin.TopLeft, 2, ⟨3, 4⟩⟩).inner_state ⟨5, 6⟩ ⟨7, 8⟩) =
      some (Vec2.mk 7 8 + Vec2.mk 5 6 /
        (VisCanvasState.mk 0 ⟨Origin.TopLeft, 2, ⟨3, 4⟩⟩).inner_state.current_scale_vec) ∧
     (VisCanvasState.mk 0 ⟨Origin.TopLeft, 2, ⟨3, 4⟩⟩).screen_to_canvas
        (to_screen (VisCanvasState.mk 0 ⟨Origin.TopLeft, 2, ⟨3, 4⟩⟩).inner_state ⟨0, 0⟩ ⟨7, 8⟩) =
      some ⟨7, 8⟩) :=
  ⟨by norm_num, round_trip_amended (VisCanvasState.mk 0 ⟨Origin.TopLeft, 2, ⟨3, 4⟩⟩)
    ⟨5, 6⟩ ⟨7, 8⟩ (by norm_num)⟩

/-- C2.  Zoom anchoring: for every prior state with `scale > 0`, every
hover position `pos` and every gesture delta `d > 0`, the code's zoom
update (`scale *= d`, `shift = shift*d + pos*(1-d)`) keeps the canvas
point under `pos` fixed: `toCanvas` before equals `toCanvas` after. -/
theorem zoom_anchoring (st : VisCanvasStateInner) (pos : Pos2) (d : ℚ)
    (hs : 0 < st.current_scale) (hd : 0 < d) :
    VisCanvasState.screen_to_canvas ⟨0, st⟩ pos =
      VisCanvasState.screen_to_canvas ⟨0, zoom_step st pos d⟩ pos := by
  obtain ⟨o, sc, shx, shy⟩ := st
  obtain ⟨posx, posy⟩ := pos
  simp only at hs
  have hsne : sc ≠ 0 := ne_of_gt hs
  have hdne : d ≠ 0 := ne_of_gt hd
  have hprod : sc * d ≠ 0 := mul_ne_zero hsne hdne
  cases o <;>
    simp only [VisCanvasState.screen_to_canvas, zoom_step,
      VisCanvasStateInner.current_scale_vec, Vec2.add_def, Vec2.sub_def,
      Vec2.mul_def, Vec2.div_def, Vec2.smul_def, if_neg hsne, if_neg hprod,
      Option.some.injEq, Vec2.ext_iff'] <;>
    constructor <;> field_simp <;> ring

/-- C2 witness: the spec's own scenario — scale 1, shift (0,0), zoom
delta 2 at hover position (50,50). -/
theorem zoom_anchoring_witness :
    0 < (VisCanvasStateInner.mk Origin.TopLeft 1 ⟨0, 0⟩).current_scale ∧
    0 < (2 : ℚ) ∧
    VisCanvasState.screen_to_canvas ⟨0, ⟨Origin.TopLeft, 1, ⟨0, 0⟩⟩⟩ ⟨50, 50⟩ =
      VisCanvasState.screen_to_canvas
        ⟨0, zoom_step ⟨Origin.TopLeft, 1, ⟨0, 0⟩⟩ ⟨50, 50⟩ 2⟩ ⟨50, 50⟩ :=
  ⟨by norm_num, by norm_num,
    zoom_anchoring ⟨Origin.TopLeft, 1, ⟨0, 0⟩⟩ ⟨50, 50⟩ 2 (by norm_num) (by norm_num)⟩

/-- C8.  For every state with `scale ≠ 0` the inverse transform's guard
passes and it returns `(s - shift) / scaleVector(origin)`; and the
precondition is genuinely needed: a state with `scale = 0` passes
`is_valid` (the bounds permit zero exactly) yet the guard fires on every
input. -/
theorem screen_to_canvas_guard :
    (∀ (s : VisCanvasState) (p : Pos2), s.inner_state.current_scale ≠ 0 →
      s.screen_to_canvas p =
        some ((p - s.inner_state.shift) / s.inner_state.current_scale_vec)) ∧
    (∃ s : VisCanvasState, s.inner_state.is_valid = true ∧
      s.inner_state.current_scale = 0 ∧
      ∀ p : Pos2, s.screen_to_canvas p = none) := by
  constructor
  · intro s p h
    simp [VisCanvasState.screen_to_canvas, h]
  · refine ⟨⟨0, ⟨Origin.TopLeft, 0, ⟨0, 0⟩⟩⟩, by decide, rfl, fun p => ?_⟩
    simp [VisCanvasState.screen_to_canvas]

/-- C3.  Validation atomicity: whatever pan, scroll and zoom inputs a
frame applies, if the updated state fails `is_valid` then `show_body`
keeps the pre-frame snapshot exactly — no per-field clamping. -/
theorem validation_atomicity (st : VisCanvasStateInner) (input : FrameInput)
    (h : (update_state st input).is_valid = false) :
    step_state st input = st := by
  simp [step_state, h]

/-- C3 witness: from the default state, a frame combining a middle-drag
pan of (1,2), a scroll of (3,4) and a zoom delta of 20 at hover (0,0)
produces scale 20 > 10, and the whole frame is rolled back. -/
theorem validation_atomicity_witness :
    (update_state VisCanvasStateInner.default
      ⟨true, ⟨1, 2⟩, some ⟨0, 0⟩, ⟨0, 0⟩, ⟨3, 4⟩, 20⟩).is_valid = false ∧
    step_state VisCanvasStateInner.default
      ⟨true, ⟨1, 2⟩, some ⟨0, 0⟩, ⟨0, 0⟩, ⟨3, 4⟩, 20⟩ = VisCanvasStateInner.default := by
  have h : (update_state VisCanvasStateInner.default
      ⟨true, ⟨1, 2⟩, some ⟨0, 0⟩, ⟨0, 0⟩, ⟨3, 4⟩, 20⟩).is_valid = false := by
    simp only [update_state, zoom_step, VisCanvasStateInner.default,
      VisCanvasStateInner.is_valid, SCROLL_SPEED, ZOOM_SPEED, Vec2.add_def,
      Vec2.sub_def, Vec2.smul_def, decide_eq_false_iff_not]
    norm_num
  exact ⟨h, validation_atomicity VisCanvasStateInner.default
    ⟨true, ⟨1, 2⟩, some ⟨0, 0⟩, ⟨0, 0⟩, ⟨3, 4⟩, 20⟩ h⟩

theorem is_valid_default : VisCanvasStateInner.default.is_valid = true := by
  simp [VisCanvasStateInner.default, VisCanvasStateInner.is_valid]

theorem is_valid_set_origin (st : VisCanvasStateInner) (o : Origin) :
    ({ st with origin := o } : VisCanvasStateInner).is_valid = st.is_valid := rfl

theorem step_state_preserves_is_valid (st : VisCanvasStateInner)
    (input : FrameInput) (h : st.is_valid = true) :
    (step_state st input).is_valid = true := by
  unfold step_state
  by_cases hv : (update_state st input).is_valid = true <;> simp [hv, h]

theorem load_preserves_is_valid (store : Store) (id : ℕ) (origin : Origin)
    (h : ((store id).getD VisCanvasStateInner.default).is_valid = true) :
    (VisCanvasState.load store id origin).inner_state.is_valid = true := by
  simpa [VisCanvasState.load, is_valid_set_origin] using h

theorem vis_canvas_preserves_store_validity (store : Store) (f : Frame)
    (h : ∀ i, ((store i).getD VisCanvasStateInner.default).is_valid = true) :
    ∀ i, ((((vis_canvas store f.id f.origin f.contents f.env f.input).2.2) i).getD
      VisCanvasStateInner.default).is_valid = true := by
  intro i
  unfold vis_canvas
  cases hr : (show_body (VisCanvasState.load store f.id f.origin).inner_state
      f.contents f.env f.input).2 with
  | error e =>
    simp only [hr]
    exact h i
  | ok inner =>
    have hinner : inner.is_valid = true := by
      unfold show_body at hr
      cases hloop : (render_loop f.contents f.env
          (VisCanvasState.load store f.id f.origin).inner_state).2 with
      | some e => simp [hloop] at hr
      | none =>
        simp only [hloop] at hr
        cases hr
        exact step_state_preserves_is_valid _ _
          (load_preserves_is_valid store f.id f.origin (h f.id))
    simp only [hr, VisCanvasState.store]
    by_cases hi : i = f.id
    · simp [hi, hinner]
    · simp only [if_neg hi]
      exact h i

/-- C4.  Every state the store holds after any sequence of frames run
from an empty store — each frame loading with an arbitrary origin,
applying arbitrary pan/scroll/zoom inputs, validating with rollback and
storing — satisfies `0 ≤ scale ≤ 10` and both shift components within
`[-100000, 100000]` (and a missing entry reads back as the valid
default). -/
theorem state_invariant_preservation (frames : List Frame) (id : ℕ) :
    (((run_frames empty_store frames) id).getD
      VisCanvasStateInner.default).is_valid = true := by
  suffices h : ∀ (store : Store),
      (∀ i, ((store i).getD VisCanvasStateInner.default).is_valid = true) →
      ∀ i, (((run_frames store frames) i).getD
        VisCanvasStateInner.default).is_valid = true by
    refine h empty_store (fun i => ?_) id
    simp [empty_store, is_valid_default]
  induction frames with
  | nil => intro store h i; simpa [run_frames] using h i
  | cons f rest ih =>
    intro store h i
    have hstep := vis_canvas_preserves_store_validity store f h
    simpa [run_frames] using ih _ hstep i

/-- C8 witness: the guarded inverse evaluated at scale 2, shift (3,4),
screen point (5,6). -/
theorem screen_to_canvas_guard_witness :
    (VisCanvasState.mk 0 ⟨Origin.TopLeft, 2, ⟨3, 4⟩⟩).inner_state.current_scale ≠ 0 ∧
    (VisCanvasState.mk 0 ⟨Origin.TopLeft, 2, ⟨3, 4⟩⟩).screen_to_canvas ⟨5, 6⟩ =
      some ((Vec2.mk 5 6 - (VisCanvasState.mk 0 ⟨Origin.TopLeft, 2, ⟨3, 4⟩⟩).inner_state.shift) /
        (VisCanvasState.mk 0 ⟨Origin.TopLeft, 2, ⟨3, 4⟩⟩).inner_state.current_scale_vec) :=
  ⟨by norm_num,
    screen_to_canvas_guard.1 (VisCanvasState.mk 0 ⟨Origin.TopLeft, 2, ⟨3, 4⟩⟩)
      ⟨5, 6⟩ (by norm_num)⟩

theorem render_loop_append (xs ys : List Content) (env : RenderEnv)
    (st : VisCanvasStateInner) (h : (render_loop xs env st).2 = none) :
    render_loop (xs ++ ys) env st =
      ((render_loop xs env st).1 ++ (render_loop ys env st).1,
        (render_loop ys env st).2) := by
  induction xs with
  | nil => simp [render_loop]
  | cons c rest ih =>
    cases hc : c.show env st with
    | error e =>
      rw [render_loop] at h
      simp [hc] at h
    | ok pr =>
      rw [render_loop] at h
      simp only [hc] at h
      rw [List.cons_append, render_loop, hc, render_loop, hc]
      simp only
      rw [ih h]
      simp [List.append_assoc]

theorem image_show_fails (img : Image) (e : LoadError) (env : RenderEnv)
    (st : VisCanvasStateInner) (h : img.image_source = Except.error e) :
    Image.show img env st = Except.error (VisCanvasError.LoadError e) := by
  simp [Image.show, h]

/-- C6.  If an Image content's load poll fails, the draw loop
short-circuits there: the frame's painter log is exactly what the
contents before the image drew (the failing image and everything after
it draw nothing), `vis_canvas` returns the failure, and the persisted
store is returned unchanged — the store step is skipped. -/
theorem image_failure_propagation (store : Store) (id : ℕ) (origin : Origin)
    (env : RenderEnv) (input : FrameInput) (pre post : List Content)
    (img : Image) (e : LoadError)
    (himg : img.image_source = Except.error e)
    (hpre : (render_loop pre env
      (VisCanvasState.load store id origin).inner_state).2 = none) :
    render_loop (pre ++ Content.Image img :: post) env
        (VisCanvasState.load store id origin).inner_state =
      ((render_loop pre env (VisCanvasState.load store id origin).inner_state).1,
        some (VisCanvasError.LoadError e)) ∧
    vis_canvas store id origin (pre ++ Content.Image img :: post) env input =
      ((render_loop pre env (VisCanvasState.load store id origin).inner_state).1,
        Except.error (VisCanvasError.LoadError e), store) := by
  have hfail : render_loop (Content.Image img :: post) env
      (VisCanvasState.load store id origin).inner_state =
      ([], some (VisCanvasError.LoadError e)) := by
    rw [render_loop]
    simp [Content.show, image_show_fails img e _ _ himg]
  have hloop : render_loop (pre ++ Content.Image img :: post) env
      (VisCanvasState.load store id origin).inner_state =
      ((render_loop pre env (VisCanvasState.load store id origin).inner_state).1,
        some (VisCanvasError.LoadError e)) := by
    rw [render_loop_append pre _ env _ hpre, hfail]
    simp
  refine ⟨hloop, ?_⟩
  simp only [vis_canvas, show_body, hloop]

/-- C6 witness: a frame whose contents are a rectangle, then an image
whose load poll fails, then a circle — the log holds only the
rectangle's draw call, the entry point fails, and the store is the one
passed in. -/
theorem image_failure_propagation_witness :
    (Image.mk (Except.error ⟨7⟩)).image_source = Except.error ⟨7⟩ ∧
    (render_loop [Content.Rectangle ⟨0, 0, 1, 1, none, none, none, false⟩]
      ⟨⟨0, 0⟩, fun p _ _ => ⟨p, p⟩⟩
      (VisCanvasState.load empty_store 0 Origin.TopLeft).inner_state).2 = none ∧
    vis_canvas empty_store 0 Origin.TopLeft
        ([Content.Rectangle ⟨0, 0, 1, 1, none, none, none, false⟩] ++
          Content.Image (Image.mk (Except.error ⟨7⟩)) ::
            [Content.Circle ⟨⟨0, 0⟩, 1, none, none, none, false⟩])
        ⟨⟨0, 0⟩, fun p _ _ => ⟨p, p⟩⟩
        ⟨false, ⟨0, 0⟩, none, ⟨0, 0⟩, ⟨0, 0⟩, 1⟩ =
      ((render_loop [Content.Rectangle ⟨0, 0, 1, 1, none, none, none, false⟩]
          ⟨⟨0, 0⟩, fun p _ _ => ⟨p, p⟩⟩
          (VisCanvasState.load empty_store 0 Origin.TopLeft).inner_state).1,
        Except.error (VisCanvasError.LoadError ⟨7⟩), empty_store) :=
  ⟨rfl, rfl,
    (image_failure_propagation empty_store 0 Origin.TopLeft
      ⟨⟨0, 0⟩, fun p _ _ => ⟨p, p⟩⟩ ⟨false, ⟨0, 0⟩, none, ⟨0, 0⟩, ⟨0, 0⟩, 1⟩
      [Content.Rectangle ⟨0, 0, 1, 1, none, none, none, false⟩]
      [Content.Circle ⟨⟨0, 0⟩, 1, none, none, none, false⟩]
      (Image.mk (Except.error ⟨7⟩)) ⟨7⟩ rfl rfl).2⟩

/-- C7.  `PiecewiseSegment::new` yields no value on fewer than two
points; on `n ≥ 2` points it yields exactly `n-1` segments, segment `i`
joining `points[i]` and `points[i+1]`, all sharing the one default
stroke. -/
theorem piecewise_segment_construction (points : List Pos2) :
    (points.length < 2 → PiecewiseSegment.new points = none) ∧
    (2 ≤ points.length → ∃ ps, PiecewiseSegment.new points = some ps ∧
      ps.stroke = Stroke.new 1 Color32.BLACK ∧
      ps.data.length = points.length - 1 ∧
      ∀ i, i < points.length - 1 →
        ps.data.getD i default =
          ⟨points.getD i default, points.getD (i + 1) default⟩) := by
  constructor
  · intro h
    simp [PiecewiseSegment.new, h]
  · intro h
    have hlt : ¬ points.length < 2 := not_lt.mpr h
    refine ⟨_, by rw [PiecewiseSegment.new, if_neg hlt], rfl, by simp, ?_⟩
    intro i hi
    simp [List.getD_eq_getElem?_getD, List.getElem?_map, List.getElem?_range, hi]

/-- C7 witness: the empty list yields no value; three points yield two
segments joining them in order. -/
theorem piecewise_segment_construction_witness :
    ([] : List Pos2).length < 2 ∧
    PiecewiseSegment.new [] = none ∧
    2 ≤ ([⟨0, 0⟩, ⟨1, 1⟩, ⟨2, 0⟩] : List Pos2).length ∧
    (∃ ps, PiecewiseSegment.new [⟨0, 0⟩, ⟨1, 1⟩, ⟨2, 0⟩] = some ps ∧
      ps.stroke = Stroke.new 1 Color32.BLACK ∧
      ps.data.length = ([⟨0, 0⟩, ⟨1, 1⟩, ⟨2, 0⟩] : List Pos2).length - 1 ∧
      ∀ i, i < ([⟨0, 0⟩, ⟨1, 1⟩, ⟨2, 0⟩] : List Pos2).length - 1 →
        ps.data.getD i default =
          ⟨([⟨0, 0⟩, ⟨1, 1⟩, ⟨2, 0⟩] : List Pos2).getD i default,
           ([⟨0, 0⟩, ⟨1, 1⟩, ⟨2, 0⟩] : List Pos2).getD (i + 1) default⟩) :=
  ⟨by norm_num, (piecewise_segment_construction []).1 (by norm_num),
   by norm_num, (piecewise_segment_construction _).2 (by norm_num)⟩

/-- C9.  Loading state for an identity overwrites only the origin field
with the supplied value, keeping the persisted scale and shift; a missing
entry loads as the default (scale 1, shift (0,0)) with the supplied
origin. -/
theorem load_frame_effect (store : Store) (id : ℕ) (origin : Origin) :
    (∀ v, store id = some v →
      VisCanvasState.load store id origin = ⟨id, { v with origin := origin }⟩) ∧
    (store id = none →
      VisCanvasState.load store id origin =
        ⟨id, { VisCanvasStateInner.default with origin := origin }⟩) ∧
    (VisCanvasState.load store id origin).inner_state.current_scale =
      ((store id).getD VisCanvasStateInner.default).current_scale ∧
    (VisCanvasState.load store id origin).inner_state.shift =
      ((store id).getD VisCanvasStateInner.default).shift ∧
    (VisCanvasState.load store id origin).inner_state.origin = origin := by
  refine ⟨fun v hv => ?_, fun hv => ?_, rfl, rfl, rfl⟩
  · simp [VisCanvasState.load, hv]
  · simp [VisCanvasState.load, hv]

/-- C9 witness: a store holding scale 3, shift (1,2), origin BottomLeft
at identity 5, loaded with origin TopLeft, keeps scale and shift and
takes the new origin. -/
theorem load_frame_effect_witness :
    (fun j => if j = 5 then some (VisCanvasStateInner.mk Origin.BottomLeft 3 ⟨1, 2⟩)
      else none : Store) 5 = some (VisCanvasStateInner.mk Origin.BottomLeft 3 ⟨1, 2⟩) ∧
    VisCanvasState.load
        (fun j => if j = 5 then some (VisCanvasStateInner.mk Origin.BottomLeft 3 ⟨1, 2⟩)
          else none) 5 Origin.TopLeft =
      ⟨5, { VisCanvasStateInner.mk Origin.BottomLeft 3 ⟨1, 2⟩ with origin := Origin.TopLeft }⟩ :=
  ⟨rfl, (load_frame_effect _ 5 Origin.TopLeft).1 _ rfl⟩

/-- C10.  `Circle::show` always returns `Ok(None)` whatever its
`responsable` flag; across all content variants, a per-shape response can
only come from a `Rectangle` whose `responsable` flag is set (Segment,
PiecewiseSegment and Image also always return `Ok(None)`). -/
theorem responses_only_from_responsable_rectangle :
    (∀ (c : Circle) (env : RenderEnv) (st : VisCanvasStateInner),
      ∃ calls, Circle.show c env st = Except.ok (none, calls)) ∧
    (∀ (content : Content) (env : RenderEnv) (st : VisCanvasStateInner)
      (resp : Response) (calls : List DrawCall),
      Content.show content env st = Except.ok (some resp, calls) →
      ∃ r : Rectangle, content = Content.Rectangle r ∧ r.responsable = true) := by
  constructor
  · intro c env st
    exact ⟨_, rfl⟩
  · intro content env st resp calls h
    cases content with
    | Rectangle r =>
      refine ⟨r, rfl, ?_⟩
      by_cases hr : r.responsable = true
      · exact hr
      · rw [Bool.not_eq_true] at hr
        simp [Content.show, Rectangle.show, hr] at h
    | Image i =>
      cases hi : i.image_source with
      | error e => simp [Content.show, Image.show, hi] at h
      | ok tp => cases tp <;> simp [Content.show, Image.show, hi] at h
    | Circle c => simp [Content.show, Circle.show] at h
    | Segment s => simp [Content.show, Segment.show] at h
    | PiecewiseSegment p => simp [Content.show, PiecewiseSegment.show] at h

/-- C10 witness: a concrete circle with `responsable = true` still yields
no response, and a concrete responsable rectangle's response witnesses
the only possible source of a per-shape response. -/
theorem responses_only_witness :
    (∃ calls, Circle.show ⟨⟨0, 0⟩, 1, none, none, none, true⟩
      ⟨⟨0, 0⟩, fun p _ _ => ⟨p, p⟩⟩ VisCanvasStateInner.default =
        Except.ok (none, calls)) ∧
    Content.show (Content.Rectangle ⟨0, 0, 1, 1, none, none, none, true⟩)
        ⟨⟨0, 0⟩, fun p _ _ => ⟨p, p⟩⟩ VisCanvasStateInner.default =
      Except.ok
        (some ⟨Rect.from_two_pos
          (to_screen VisCanvasStateInner.default ⟨0, 0⟩ ⟨0, 0⟩)
          (to_screen VisCanvasStateInner.default ⟨0, 0⟩ ⟨0 + 1, 0 + 1⟩)⟩,
         [DrawCall.rect
           (Rect.from_two_pos
             (to_screen VisCanvasStateInner.default ⟨0, 0⟩ ⟨0, 0⟩)
             (to_screen VisCanvasStateInner.default ⟨0, 0⟩ ⟨0 + 1, 0 + 1⟩))
           (Option.getD none default) (Option.getD none (Stroke.new 0 Color32.BLACK))]) ∧
    (∃ r : Rectangle,
      Content.Rectangle ⟨0, 0, 1, 1, none, none, none, true⟩ = Content.Rectangle r ∧
      r.responsable = true) :=
  ⟨responses_only_from_responsable_rectangle.1 ⟨⟨0, 0⟩, 1, none, none, none, true⟩
      ⟨⟨0, 0⟩, fun p _ _ => ⟨p, p⟩⟩ VisCanvasStateInner.default,
   rfl,
   responses_only_from_responsable_rectangle.2
     (Content.Rectangle ⟨0, 0, 1, 1, none, none, none, true⟩)
     ⟨⟨0, 0⟩, fun p _ _ => ⟨p, p⟩⟩ VisCanvasStateInner.default _ _ rfl⟩

theorem VecR.add_eval (a b : VecR) : a + b = ⟨a.x + b.x, a.y + b.y⟩ := rfl

theorem VecR.sub_eval (a b : VecR) : a - b = ⟨a.x - b.x, a.y - b.y⟩ := rfl

theorem VecR.mul_eval (a b : VecR) : a * b = ⟨a.x * b.x, a.y * b.y⟩ := rfl

theorem VecR.hmul_eval (a : VecR) (k : ℝ) : a * k = ⟨a.x * k, a.y * k⟩ := rfl

theorem VecR.length_pos (v : VecR) (h : ¬(v.x = 0 ∧ v.y = 0)) : 0 < v.length := by
  unfold VecR.length
  apply Real.sqrt_pos.mpr
  rcases not_and_or.mp h with hx | hy
  · have h1 : 0 < v.x * v.x := mul_self_pos.mpr hx
    nlinarith [sq_nonneg v.y]
  · have h1 : 0 < v.y * v.y := mul_self_pos.mpr hy
    nlinarith [sq_nonneg v.x]

theorem VecR.length_normalized (v : VecR) (h : ¬(v.x = 0 ∧ v.y = 0)) :
    v.normalized.length = 1 := by
  have hl := VecR.length_pos v h
  have hpos : 0 < v.x ^ 2 + v.y ^ 2 := by
    have := Real.sqrt_pos.mp (by simpa [VecR.length] using hl)
    exact this
  have hnn : (0 : ℝ) ≤ v.x ^ 2 + v.y ^ 2 := le_of_lt hpos
  show Real.sqrt ((v.x / v.length) ^ 2 + (v.y / v.length) ^ 2) = 1
  have hlen : v.length = Real.sqrt (v.x ^ 2 + v.y ^ 2) := rfl
  rw [hlen, div_pow, div_pow, Real.sq_sqrt hnn, div_add_div_same,
    div_self (ne_of_gt hpos), Real.sqrt_one]

theorem VecR.normalized_idem (v : VecR) (h : ¬(v.x = 0 ∧ v.y = 0)) :
    v.normalized.normalized = v.normalized := by
  have h1 := VecR.length_normalized v h
  rw [VecR.ext_components]
  constructor
  · show v.normalized.x / v.normalized.length = v.normalized.x
    rw [h1, div_one]
  · show v.normalized.y / v.normalized.length = v.normalized.y
    rw [h1, div_one]

theorem arrow_head_shape_eq (point back : VecR) (t : ℝ) (color : Color32) :
    arrow_head_shape point back t color =
      (⟨[point, point + rot_neg45 back.normalized * (5 : ℝ) * t,
          point + rot_pos45 back.normalized * (5 : ℝ) * t],
        color, ⟨0, default⟩⟩,
       back.normalized * (3 : ℝ) * t) := rfl

theorem subtraction_nonzero_of_ne (a b : VecR) (h : a ≠ b) :
    ¬((b - a).x = 0 ∧ (b - a).y = 0) := by
  rintro ⟨hx, hy⟩
  apply h
  rw [VecR.sub_eval] at hx hy
  rw [VecR.ext_components]
  constructor <;> simp only at hx hy <;> linarith

/-- C5.  The claim's wing formula — wing points at
`e + rot(+-45)(u) * 5 * strokeWidth` with `u = normalize(e - f)`, the
unit vector from the far endpoint toward the accented endpoint — fails
on the code, which rotates `normalize(f - e)` (the vector pointing back
toward the far endpoint).  Concretely: segment (0,0)→(1,0) with an Arrow
on the end, stroke width 1, default state, clip origin (0,0): the
transformed endpoints are e = (1,0), f = (0,0); the drawn triangle is
not `(e, e + rot(-45)(u)*5, e + rot(+45)(u)*5)` for the claimed
`u = normalize(e - f)`. -/
theorem arrow_geometry_counterexample :
    (SegmentR.show
        ⟨⟨⟨0, 0⟩, ⟨1, 0⟩⟩, ⟨1, Color32.BLACK⟩,
          (SegmentAccent.None, SegmentAccent.Arrow)⟩
        ⟨0, 0⟩ ⟨Origin.TopLeft, 1, ⟨0, 0⟩⟩).1 ≠
      [⟨[VecR.mk 1 0,
         VecR.mk 1 0 + rot_neg45 (VecR.mk 1 0 - VecR.mk 0 0).normalized * (5 : ℝ) * (1 : ℝ),
         VecR.mk 1 0 + rot_pos45 (VecR.mk 1 0 - VecR.mk 0 0).normalized * (5 : ℝ) * (1 : ℝ)],
        Color32.BLACK, ⟨0, default⟩⟩] := by
  have hc : Real.cos FRAC_PI_4 = Real.sqrt 2 / 2 := by
    rw [FRAC_PI_4]; exact Real.cos_pi_div_four
  have hsin : Real.sin FRAC_PI_4 = Real.sqrt 2 / 2 := by
    rw [FRAC_PI_4]; exact Real.sin_pi_div_four
  have h2 : (0 : ℝ) < Real.sqrt 2 := Real.sqrt_pos.mpr (by norm_num)
  have hpos : to_screenR ⟨Origin.TopLeft, 1, ⟨0, 0⟩⟩ ⟨0, 0⟩ ⟨0, 0⟩ = VecR.mk 0 0 := by
    simp [to_screenR, VisCanvasStateInnerR.current_scale_vec, VecR.add_eval,
      VecR.mul_eval, VecR.ext_components]
  have hpos1 : to_screenR ⟨Origin.TopLeft, 1, ⟨0, 0⟩⟩ ⟨0, 0⟩ ⟨1, 0⟩ = VecR.mk 1 0 := by
    simp [to_screenR, VisCanvasStateInnerR.current_scale_vec, VecR.add_eval,
      VecR.mul_eval, VecR.ext_components]
  have hnm1 : (VecR.mk (-1) 0).normalized = VecR.mk (-1) 0 := by
    rw [VecR.ext_components]
    constructor <;>
      · show _ / VecR.length _ = _
        rw [show VecR.length (VecR.mk (-1) 0) = 1 by
          unfold VecR.length; norm_num]
        norm_num
  have hnp1 : (VecR.mk 1 0).normalized = VecR.mk 1 0 := by
    rw [VecR.ext_components]
    constructor <;>
      · show _ / VecR.length _ = _
        rw [show VecR.length (VecR.mk 1 0) = 1 by
          unfold VecR.length; norm_num]
        norm_num
  have hsub : VecR.mk 0 0 - VecR.mk 1 0 = VecR.mk (-1) 0 := by
    rw [VecR.sub_eval, VecR.ext_components]; norm_num
  have hsub1 : VecR.mk 1 0 - VecR.mk 0 0 = VecR.mk 1 0 := by
    rw [VecR.sub_eval, VecR.ext_components]; norm_num
  intro h
  simp only [SegmentR.show, hpos, hpos1, hsub, hsub1, hnm1, hnp1,
    arrow_head_shape_eq] at h
  simp only [List.cons.injEq, PathShapeR.mk.injEq, VecR.ext_components,
    VecR.add_eval, VecR.hmul_eval, rot_pos45, rot_neg45, hc, hsin] at h
  simp only [List.nil_append, List.cons.injEq, PathShapeR.mk.injEq,
    VecR.mk.injEq, Real.cos_neg, Real.sin_neg, hc, hsin, and_true,
    true_and] at h
  nlinarith [h.1.1, h2]

/-- C5 (amended).  For a Segment with an Arrow accent on an end, with
transformed raw endpoint `e` and far endpoint `f`, the wing base vector
is `u = normalize(f - e)` — the unit vector from the accented endpoint
toward the far endpoint, i.e. the reverse of the segment direction at
that end (not `normalize(e - f)`): the filled triangle drawn in the
stroke color is `(e, e + rot(-45)(u)*5*w, e + rot(+45)(u)*5*w)` with `w`
the stroke width, and the visible line's endpoint is pulled back to
`e + u*3*w`.  For the start accent this holds with the raw endpoints
unconditionally; for the end accent it is stated when the start carries
no accent (with both accents, the end arrow head reads the already
pulled-back start point as its far endpoint). -/
theorem arrow_geometry_amended (seg : SegmentR) (clip : VecR)
    (st : VisCanvasStateInnerR)
    (hne : to_screenR st clip seg.data.start ≠ to_screenR st clip seg.data.end_) :
    (seg.accents.1 = SegmentAccent.Arrow →
      (SegmentR.show seg clip st).1.head? = some
        ⟨[to_screenR st clip seg.data.start,
          to_screenR st clip seg.data.start +
            rot_neg45 ((to_screenR st clip seg.data.end_ -
              to_screenR st clip seg.data.start).normalized) * (5 : ℝ) * seg.stroke.width,
          to_screenR st clip seg.data.start +
            rot_pos45 ((to_screenR st clip seg.data.end_ -
              to_screenR st clip seg.data.start).normalized) * (5 : ℝ) * seg.stroke.width],
         seg.stroke.color, ⟨0, default⟩⟩ ∧
      (SegmentR.show seg clip st).2.1 =
        to_screenR st clip seg.data.start +
          ((to_screenR st clip seg.data.end_ -
            to_screenR st clip seg.data.start).normalized) * (3 : ℝ) * seg.stroke.width) ∧
    (seg.accents.1 = SegmentAccent.None → seg.accents.2 = SegmentAccent.Arrow →
      (SegmentR.show seg clip st).1 =
        [⟨[to_screenR st clip seg.data.end_,
           to_screenR st clip seg.data.end_ +
             rot_neg45 ((to_screenR st clip seg.data.start -
               to_screenR st clip seg.data.end_).normalized) * (5 : ℝ) * seg.stroke.width,
           to_screenR st clip seg.data.end_ +
             rot_pos45 ((to_screenR st clip seg.data.start -
               to_screenR st clip seg.data.end_).normalized) * (5 : ℝ) * seg.stroke.width],
          seg.stroke.color, ⟨0, default⟩⟩] ∧
      (SegmentR.show seg clip st).2 =
        (to_screenR st clip seg.data.start,
         to_screenR st clip seg.data.end_ +
           ((to_screenR st clip seg.data.start -
             to_screenR st clip seg.data.end_).normalized) * (3 : ℝ) * seg.stroke.width)) := by
  have hne1 := subtraction_nonzero_of_ne _ _ hne
  have hne2 := subtraction_nonzero_of_ne _ _ (Ne.symm hne)
  have hidem1 := VecR.normalized_idem _ hne1
  have hidem2 := VecR.normalized_idem _ hne2
  constructor
  · intro h1
    cases h2 : seg.accents.2 with
    | None =>
      constructor <;>
        simp [SegmentR.show, h1, h2, arrow_head_shape_eq, hidem1]
    | Arrow =>
      constructor <;>
        simp [SegmentR.show, h1, h2, arrow_head_shape_eq, hidem1]
  · intro h1 h2
    constructor <;>
      simp [SegmentR.show, h1, h2, arrow_head_shape_eq, hidem2]

/-- C5 witness: the amended arrow geometry evaluated on the segment
(0,0)→(1,0) with an Arrow accent on its end, stroke width 1, default
state, clip origin (0,0). -/
theorem arrow_geometry_witness :
    to_screenR ⟨Origin.TopLeft, 1, ⟨0, 0⟩⟩ ⟨0, 0⟩ ⟨0, 0⟩ ≠
      to_screenR ⟨Origin.TopLeft, 1, ⟨0, 0⟩⟩ ⟨0, 0⟩ ⟨1, 0⟩ ∧
    ((SegmentR.show
        ⟨⟨⟨0, 0⟩, ⟨1, 0⟩⟩, ⟨1, Color32.BLACK⟩,
          (SegmentAccent.None, SegmentAccent.Arrow)⟩
        ⟨0, 0⟩ ⟨Origin.TopLeft, 1, ⟨0, 0⟩⟩).1 =
      [⟨[to_screenR ⟨Origin.TopLeft, 1, ⟨0, 0⟩⟩ ⟨0, 0⟩ ⟨1, 0⟩,
         to_screenR ⟨Origin.TopLeft, 1, ⟨0, 0⟩⟩ ⟨0, 0⟩ ⟨1, 0⟩ +
           rot_neg45 ((to_screenR ⟨Origin.TopLeft, 1, ⟨0, 0⟩⟩ ⟨0, 0⟩ ⟨0, 0⟩ -
             to_screenR ⟨Origin.TopLeft, 1, ⟨0, 0⟩⟩ ⟨0, 0⟩ ⟨1, 0⟩).normalized) *
               (5 : ℝ) * (1 : ℝ),
         to_screenR ⟨Origin.TopLeft, 1, ⟨0, 0⟩⟩ ⟨0, 0⟩ ⟨1, 0⟩ +
           rot_pos45 ((to_screenR ⟨Origin.TopLeft, 1, ⟨0, 0⟩⟩ ⟨0, 0⟩ ⟨0, 0⟩ -
             to_screenR ⟨Origin.TopLeft, 1, ⟨0, 0⟩⟩ ⟨0, 0⟩ ⟨1, 0⟩).normalized) *
               (5 : ℝ) * (1 : ℝ)],
        Color32.BLACK, ⟨0, default⟩⟩] ∧
     (SegmentR.show
        ⟨⟨⟨0, 0⟩, ⟨1, 0⟩⟩, ⟨1, Color32.BLACK⟩,
          (SegmentAccent.None, SegmentAccent.Arrow)⟩
        ⟨0, 0⟩ ⟨Origin.TopLeft, 1, ⟨0, 0⟩⟩).2 =
      (to_screenR ⟨Origin.TopLeft, 1, ⟨0, 0⟩⟩ ⟨0, 0⟩ ⟨0, 0⟩,
       to_screenR ⟨Origin.TopLeft, 1, ⟨0, 0⟩⟩ ⟨0, 0⟩ ⟨1, 0⟩ +
         ((to_screenR ⟨Origin.TopLeft, 1, ⟨0, 0⟩⟩ ⟨0, 0⟩ ⟨0, 0⟩ -
           to_screenR ⟨Origin.TopLeft, 1, ⟨0, 0⟩⟩ ⟨0, 0⟩ ⟨1, 0⟩).normalized) *
             (3 : ℝ) * (1 : ℝ))) := by
  have hne : to_screenR ⟨Origin.TopLeft, 1, ⟨0, 0⟩⟩ ⟨0, 0⟩ ⟨0, 0⟩ ≠
      to_screenR ⟨Origin.TopLeft, 1, ⟨0, 0⟩⟩ ⟨0, 0⟩ ⟨1, 0⟩ := by
    simp [to_screenR, VisCanvasStateInnerR.current_scale_vec, VecR.add_eval,
      VecR.mul_eval, VecR.ext_components]
  exact ⟨hne, (arrow_geometry_amended
    ⟨⟨⟨0, 0⟩, ⟨1, 0⟩⟩, ⟨1, Color32.BLACK⟩,
      (SegmentAccent.None, SegmentAccent.Arrow)⟩
    ⟨0, 0⟩ ⟨Origin.TopLeft, 1, ⟨0, 0⟩⟩ hne).2 rfl rfl⟩

end VisCanvas
